import Mathlib

/-!
Verification development for the address classification and UTXO-to-input
adaptation layer of the rgbpp-sdk btc package
(`packages/btc/src/transaction/utxo.ts` and the address module).

The TypeScript source is shallowly embedded: machine integers become `Nat`,
JS strings become `String`, byte `Buffer`s become `List Nat` (each element
< 256 where the producer guarantees it), thrown `TxBuildError`s become
`Except TxBuildError`, and `undefined`-able values become `Option`.
JS truthiness on optional strings (undefined and "" are both falsy) is
modelled by `jsTruthy`.

External-library facilities from bitcoinjs-lib (base58check / bech32
codecs, hash160, the taproot output-key derivation) are modelled: the
codecs keep every feature the embedded code relies on (the human-readable
part separated by the last `'1'`, witness version, program bytes, the
base58 version byte and the leading character it determines, and the
round-trip property), while digests are abstracted to fixed-length byte
strings since no embedded code inspects digest values.
-/

/-- Hex digit value of a character (both cases accepted, as Node's
`Buffer.from(_, 'hex')` does), `none` for a non-hex character. -/
def hexDigit? (c : Char) : Option Nat :=
  let n := c.toNat
  if 48 ≤ n ∧ n ≤ 57 then some (n - 48)
  else if 97 ≤ n ∧ n ≤ 102 then some (n - 87)
  else if 65 ≤ n ∧ n ≤ 70 then some (n - 55)
  else none

/-- Node `Buffer.from(s, 'hex')` semantics on a character list: consume
hex-digit pairs from the left, stop silently at the first pair that is not
two hex digits (a trailing odd character is dropped). -/
def bufferFromHexAux : List Char → List Nat
  | c1 :: c2 :: rest =>
    match hexDigit? c1, hexDigit? c2 with
    | some h, some l => (16 * h + l) :: bufferFromHexAux rest
    | _, _ => []
  | _ => []

/-- Modelled from bitcoinjs/Node: `Buffer.from(s, 'hex')` as a byte list. -/
def bufferFromHex (s : String) : List Nat := bufferFromHexAux s.data

/-- Strict hex decoding: succeeds only when the whole character list is
hex-digit pairs. Used by the modelled base58check codec. -/
def decodeHexStrict : List Char → Option (List Nat)
  | [] => some []
  | c1 :: c2 :: rest =>
    match hexDigit? c1, hexDigit? c2 with
    | some h, some l => (decodeHexStrict rest).map (fun bs => (16 * h + l) :: bs)
    | _, _ => none
  | [_] => none

/-- Lowercase hex character of a value `< 16`: digits map into
`'0'..'9'` (codepoint 48 + n), the rest into `'a'..'f'` (87 + n). -/
def hexChar (n : Nat) : Char :=
  if n < 10 then Char.ofNat (48 + n) else Char.ofNat (87 + n)

/-- Two-character lowercase hex rendering of a byte. -/
def encHexByte (b : Nat) : List Char := [hexChar (b / 16), hexChar (b % 16)]

/-- Whether the second character list begins with the first (the
pattern comes first so that the recursion is on it). -/
def startsWithChars : List Char → List Char → Bool
  | [], _ => true
  | _ :: _, [] => false
  | pc :: ps, c :: cs => c == pc && startsWithChars ps cs

/-- JS `s.startsWith(p)`. -/
def strStartsWith (s p : String) : Bool := startsWithChars p.data s.data

/-- `remove0x` from `packages/btc/src/utils.ts` (not in the provided
slice; modelled from its use sites and name): strip a leading `0x`. -/
def remove0x (s : String) : String :=
  if strStartsWith s "0x" then String.mk (s.data.drop 2) else s

/-- JS truthiness of an optional string: `undefined` and `""` are falsy. -/
def jsTruthy : Option String → Bool
  | none => false
  | some s => !s.data.isEmpty

/-- `toXOnly` from `packages/btc/src/utils.ts` (modelled):
`pubkey.length === 32 ? pubkey : pubkey.slice(1, 33)`. -/
def toXOnly (pubkey : List Nat) : List Nat :=
  if pubkey.length = 32 then pubkey else (pubkey.drop 1).take 32

/-- Modelled digest: HASH160 (RIPEMD160 of SHA256) abstracted to a
20-byte digest; no embedded code inspects digest values, only the
length matters for classification. -/
def hash160 (bytes : List Nat) : List Nat := (bytes ++ List.replicate 20 0).take 20

/-- Modelled digest: the taproot output-key derivation (x-only tweak)
abstracted to a 32-byte value. -/
def taprootTweak (internalKey : List Nat) : List Nat :=
  (internalKey ++ List.replicate 32 0).take 32

/-- `bitcoin.payments.p2wpkh(..).output`: `OP_0 PUSH20 <hash160(pubkey)>`. -/
def p2wpkhOutput (pubkey : List Nat) : List Nat := 0x00 :: 0x14 :: hash160 pubkey

/-- `isP2trScript` from `packages/btc/src/script.ts`. Modelled from the
spec: the check that a UTXO's output script is taproot-shaped
(`OP_1 PUSH32`, hex `5120...`), tolerant of a `0x` prefix. -/
def isP2trScript (script : String) : Bool := strStartsWith (remove0x script) "5120"

/-- Error codes of `TxBuildError`. Modelled from the spec (§7): the three
deterministic validation failures used by this slice. -/
inductive ErrorCodes where
  | MISSING_PUBKEY
  | UNSUPPORTED_ADDRESS_TYPE
  | UNCONFIRMED_UTXO
  deriving DecidableEq, Repr

/-- `TxBuildError`, modelled as its code plus the identifying comment
attached by `TxBuildError.withComment`. -/
structure TxBuildError where
  code : ErrorCodes
  comment : Option String
  deriving DecidableEq, Repr

/-- `TxBuildError.withComment(code, comment)`. -/
def TxBuildError.withComment (code : ErrorCodes) (comment : String) : TxBuildError :=
  ⟨code, some comment⟩

/-- `AddressType` enum from the address module. -/
inductive AddressType where
  | P2PKH
  | P2WPKH
  | P2TR
  | P2SH_P2WPKH
  | P2WSH
  | P2SH
  | UNKNOWN
  deriving DecidableEq, Repr

/-- `NetworkType` enum from `preset/types`. -/
inductive NetworkType where
  | MAINNET
  | TESTNET
  | REGTEST
  deriving DecidableEq, Repr

/-- The slice of a bitcoinjs `Network` used by the embedded code: the two
base58check version bytes and the bech32 human-readable part. -/
structure Network where
  pubKeyHash : Nat
  scriptHash : Nat
  bech32 : String
  deriving DecidableEq, Repr

/-- `bitcoin.networks.bitcoin` (the fields used here). -/
def mainnet : Network := ⟨0x00, 0x05, "bc"⟩

/-- `bitcoin.networks.testnet`. -/
def testnet : Network := ⟨0x6f, 0xc4, "tb"⟩

/-- `bitcoin.networks.regtest`. Note it shares both base58check version
bytes with testnet; only the bech32 part differs. -/
def regtest : Network := ⟨0x6f, 0xc4, "bcrt"⟩

/-- `networkTypeToNetwork` from `preset/network` (modelled: the evident
table). -/
def networkTypeToNetwork : NetworkType → Network
  | .MAINNET => mainnet
  | .TESTNET => testnet
  | .REGTEST => regtest

/-- The bech32 data-part character set (BIP-173 order); it excludes
`'1'`, `'b'`, `'i'`, `'o'`. -/
def bech32Charset : List Char :=
  ['q', 'p', 'z', 'r', 'y', '9', 'x', '8', 'g', 'f', '2', 't', 'v', 'd', 'w', '0',
   's', '3', 'j', 'n', '5', '4', 'k', 'h', 'c', 'e', '6', 'm', 'u', 'a', '7', 'l']

/-- Character for a 5-bit value in the bech32 data part. -/
def encB32 (n : Nat) : Char := bech32Charset.getD n 'q'

/-- Value of a bech32 data-part character. -/
def decB32 (c : Char) : Option Nat := bech32Charset.findIdx? (fun d => d == c)

/-- A byte as two bech32 data-part characters (high 3 bits, low 5 bits). -/
def encodeByteB32 (b : Nat) : List Char := [encB32 (b / 32), encB32 (b % 32)]

/-- Decode a bech32 data part (after the version character) back to bytes:
pairs of charset characters, the first of each pair below 8. -/
def decodeB32Bytes : List Char → Option (List Nat)
  | [] => some []
  | c1 :: c2 :: rest =>
    match decB32 c1, decB32 c2 with
    | some h, some l =>
      if h < 8 then (decodeB32Bytes rest).map (fun bs => (32 * h + l) :: bs) else none
    | _, _ => none
  | [_] => none

/-- An address in decoded form: either a segwit (bech32) address with its
human-readable part, witness version and program, or a base58check address
with its version byte and payload hash. -/
inductive Addr where
  | bech32 (hrp : String) (version : Nat) (program : List Nat)
  | base58 (version : Nat) (hash : List Nat)

/-- Leading character a base58check string gets from its version byte,
as in real base58: `0x00 → '1'`, `0x05 → '3'`, `0x6f → 'm'`, `0xc4 → '2'`. -/
def b58Lead (version : Nat) : Char :=
  if version = 0x00 then '1'
  else if version = 0x05 then '3'
  else if version = 0x6f then 'm'
  else if version = 0xc4 then '2'
  else 'Z'

/-- Modelled address encoding (bitcoinjs `payment.address`): a bech32
address is the hrp, the separator `'1'`, the version character and the
program in charset pairs (checksum omitted); a base58check address is its
version-determined leading character followed by version and payload in
hex (checksum omitted). Decoding below inverts this exactly. -/
def encodeAddr : Addr → String
  | .bech32 hrp v prog =>
    String.mk (hrp.data ++ '1' :: encB32 v :: (prog.map encodeByteB32).flatten)
  | .base58 v h =>
    String.mk (b58Lead v :: (encHexByte v ++ (h.map encHexByte).flatten))

/-- Split a character list at its last `'1'`, as the bech32 separator
rule demands; `none` when there is no `'1'`. -/
def splitLastOne (cs : List Char) : Option (List Char × List Char) :=
  let r := cs.reverse
  match r.dropWhile (fun c => c != '1') with
  | [] => none
  | _ :: beforeRev => some (beforeRev.reverse, (r.takeWhile (fun c => c != '1')).reverse)

/-- Result of `bitcoin.address.fromBech32` (field `prefix` renamed to
`hrp`). -/
structure Bech32Result where
  hrp : String
  version : Nat
  data : List Nat
  deriving DecidableEq, Repr

/-- Result of `bitcoin.address.fromBase58Check`. -/
structure Base58CheckResult where
  version : Nat
  hash : List Nat
  deriving DecidableEq, Repr

/-- Modelled `bitcoin.address.fromBech32`: split at the last `'1'`, read
the version character and the program pairs; `none` on any malformation
(the embedded caller catches the real library's throw). -/
def fromBech32? (s : String) : Option Bech32Result :=
  match splitLastOne s.data with
  | none => none
  | some (hrpChars, dataChars) =>
    match dataChars with
    | [] => none
    | vc :: rest =>
      match decB32 vc, decodeB32Bytes rest with
      | some v, some bytes => some ⟨String.mk hrpChars, v, bytes⟩
      | _, _ => none

/-- Modelled `bitcoin.address.fromBase58Check`: invert `encodeAddr` on
base58 addresses; `none` on any malformation. -/
def fromBase58Check? (s : String) : Option Base58CheckResult :=
  match s.data with
  | [] => none
  | lead :: rest =>
    match decodeHexStrict rest with
    | some (v :: hash) => if lead = b58Lead v then some ⟨v, hash⟩ else none
    | _ => none

/-- `getAddressTypeDust` from the address module. -/
def getAddressTypeDust (addressType : AddressType) : Nat :=
  if addressType = AddressType.P2WPKH then 294
  else if addressType = AddressType.P2TR then 330
  else 546

/-- `DecodedAddress`: the record returned by `decodeAddress`. -/
structure DecodedAddress where
  networkType : NetworkType
  addressType : AddressType
  dust : Nat
  deriving DecidableEq, Repr

/-- The universal fallback of `decodeAddress`. -/
def fallbackDecoded : DecodedAddress :=
  ⟨NetworkType.MAINNET, AddressType.UNKNOWN, 546⟩

/-- The bech32-route gate of `decodeAddress`:
`address.startsWith('bc1') || address.startsWith('tb1') || address.startsWith('bcrt1')`. -/
def bech32Gate (address : String) : Bool :=
  strStartsWith address "bc1" || strStartsWith address "tb1" || strStartsWith address "bcrt1"

/-- Network from a bech32 hrp, as the first if-chain of the bech32 branch. -/
def bech32Network (hrp : String) : Option NetworkType :=
  if hrp = mainnet.bech32 then some NetworkType.MAINNET
  else if hrp = testnet.bech32 then some NetworkType.TESTNET
  else if hrp = regtest.bech32 then some NetworkType.REGTEST
  else none

/-- Address type from witness version and program length, as the second
if-chain of the bech32 branch. -/
def bech32Type (version len : Nat) : Option AddressType :=
  if version = 0 then
    if len = 20 then some AddressType.P2WPKH
    else if len = 32 then some AddressType.P2WSH
    else none
  else if version = 1 then
    if len = 32 then some AddressType.P2TR
    else none
  else none

/-- Network and type from a base58check version byte, as the if-chain of
the base58 branch: both pubKeyHash tables before both scriptHash tables,
mainnet, then testnet, then regtest (the regtest arms are dead since its
version bytes equal testnet's — "do not work" in the source). -/
def base58ClassifyVersion (version : Nat) : Option (NetworkType × AddressType) :=
  if version = mainnet.pubKeyHash then some (NetworkType.MAINNET, AddressType.P2PKH)
  else if version = testnet.pubKeyHash then some (NetworkType.TESTNET, AddressType.P2PKH)
  else if version = regtest.pubKeyHash then some (NetworkType.REGTEST, AddressType.P2PKH)
  else if version = mainnet.scriptHash then some (NetworkType.MAINNET, AddressType.P2SH_P2WPKH)
  else if version = testnet.scriptHash then some (NetworkType.TESTNET, AddressType.P2SH_P2WPKH)
  else if version = regtest.scriptHash then some (NetworkType.REGTEST, AddressType.P2SH_P2WPKH)
  else none

/-- `decodeAddress` from the address module. Decode failures of either
codec are swallowed (`none` here, `catch` in the source) and fall to the
universal fallback; the bech32 route never falls through to base58. -/
def decodeAddress (address : String) : DecodedAddress :=
  if bech32Gate address then
    match fromBech32? address with
    | some decoded =>
      match bech32Network decoded.hrp, bech32Type decoded.version decoded.data.length with
      | some networkType, some addressType =>
        ⟨networkType, addressType, getAddressTypeDust addressType⟩
      | _, _ => fallbackDecoded
    | none => fallbackDecoded
  else
    match fromBase58Check? address with
    | some decoded =>
      match base58ClassifyVersion decoded.version with
      | some (networkType, addressType) =>
        ⟨networkType, addressType, getAddressTypeDust addressType⟩
      | none => fallbackDecoded
    | none => fallbackDecoded

/-- The slice of a bitcoinjs payment object used by the embedded code:
its address (always derivable for the four supported types in this
model). -/
structure Payment where
  address : String

/-- `publicKeyToPayment` from the address module: empty/absent pubkey
gives `undefined`; otherwise dispatch on address type (P2PKH/P2WPKH use
the pubkey hash, P2TR the tweaked x-only key, P2SH_P2WPKH wraps the
derived P2WPKH output); any other type gives `undefined`. The bitcoinjs
payment constructors are modelled by `encodeAddr` over the decoded
address forms they produce. -/
def publicKeyToPayment (publicKey : String) (addressType : AddressType)
    (networkType : NetworkType) : Option Payment :=
  if publicKey.data.isEmpty then none
  else
    let network := networkTypeToNetwork networkType
    let pubkey := bufferFromHex (remove0x publicKey)
    match addressType with
    | .P2PKH => some ⟨encodeAddr (.base58 network.pubKeyHash (hash160 pubkey))⟩
    | .P2WPKH => some ⟨encodeAddr (.bech32 network.bech32 0 (hash160 pubkey))⟩
    | .P2TR => some ⟨encodeAddr (.bech32 network.bech32 1 (taprootTweak (toXOnly pubkey)))⟩
    | .P2SH_P2WPKH => some ⟨encodeAddr (.base58 network.scriptHash (hash160 (p2wpkhOutput pubkey)))⟩
    | _ => none

/-- `publicKeyToAddress` from the address module: unwrap the payment's
address, failing with `UNSUPPORTED_ADDRESS_TYPE` when there is none. -/
def publicKeyToAddress (publicKey : String) (addressType : AddressType)
    (networkType : NetworkType) : Except TxBuildError String :=
  match publicKeyToPayment publicKey addressType networkType with
  | some payment => .ok payment.address
  | none => .error ⟨ErrorCodes.UNSUPPORTED_ADDRESS_TYPE, none⟩

/-- `Utxo` from `transaction/utxo.ts` (via `BaseOutput` and `Output`). -/
structure Utxo where
  txid : String
  vout : Nat
  value : Nat
  scriptPk : String
  addressType : AddressType
  address : String
  pubkey : Option String
  deriving DecidableEq, Repr

/-- The `witnessUtxo` descriptor of a PSBT input. -/
structure WitnessUtxo where
  value : Nat
  script : List Nat
  deriving DecidableEq, Repr

/-- The `data` part of a `TxInput`: signing reference, witness-utxo
descriptor, and the optional type-specific extras. In the source the
extra fields are simply absent from the object literal; here absence is
`none`. -/
structure InputData where
  hash : String
  index : Nat
  witnessUtxo : WitnessUtxo
  tapInternalKey : Option (List Nat)
  redeemScript : Option (List Nat)
  deriving DecidableEq, Repr

/-- `TxInput` from `transaction/build.ts`: the PSBT input data paired
with the originating Utxo. -/
structure TxInput where
  data : InputData
  utxo : Utxo
  deriving DecidableEq, Repr

/-- `utxoToInput` from `transaction/utxo.ts`. Note the asymmetry kept
from the source: the P2WPKH and P2TR branches pass `scriptPk` (and the
P2TR pubkey) through `remove0x` before hex-decoding, while the P2SH and
P2SH_P2WPKH branches hex-decode `scriptPk` (and the P2SH_P2WPKH pubkey)
as-is. -/
def utxoToInput (utxo : Utxo) : Except TxBuildError TxInput :=
  if utxo.addressType = AddressType.P2WPKH then
    .ok ⟨⟨utxo.txid, utxo.vout, ⟨utxo.value, bufferFromHex (remove0x utxo.scriptPk)⟩,
          none, none⟩, utxo⟩
  else if utxo.addressType = AddressType.P2TR then
    if !jsTruthy utxo.pubkey then
      .error (TxBuildError.withComment ErrorCodes.MISSING_PUBKEY utxo.address)
    else
      .ok ⟨⟨utxo.txid, utxo.vout, ⟨utxo.value, bufferFromHex (remove0x utxo.scriptPk)⟩,
            some (toXOnly (bufferFromHex (remove0x (utxo.pubkey.getD "")))), none⟩, utxo⟩
  else if utxo.addressType = AddressType.P2SH then
    .ok ⟨⟨utxo.txid, utxo.vout, ⟨utxo.value, bufferFromHex utxo.scriptPk⟩,
          none, none⟩, utxo⟩
  else if utxo.addressType = AddressType.P2SH_P2WPKH then
    if !jsTruthy utxo.pubkey then
      .error (TxBuildError.withComment ErrorCodes.MISSING_PUBKEY utxo.address)
    else
      .ok ⟨⟨utxo.txid, utxo.vout, ⟨utxo.value, bufferFromHex utxo.scriptPk⟩,
            none, some (p2wpkhOutput (bufferFromHex (utxo.pubkey.getD "")))⟩, utxo⟩
  else
    .error ⟨ErrorCodes.UNSUPPORTED_ADDRESS_TYPE, none⟩

/-- `AddressToPubkeyMap` (a JS record), modelled as a lookup function;
a missing key is `none`. -/
def AddressToPubkeyMap : Type := String → Option String

/-- The options object of `fillUtxoPubkey` (`undefined` options behave
as `requirePubkey := false`). -/
structure FillOptions where
  requirePubkey : Bool
  deriving DecidableEq, Repr

/-- `fillUtxoPubkey` from `transaction/utxo.ts`: on a taproot-shaped
script with a falsy pubkey, look the address up in the map; fail with
`MISSING_PUBKEY` if `requirePubkey` is set and the lookup is falsy; set
the pubkey only when the lookup is truthy. `cloneDeep` becomes value
copying. -/
def fillUtxoPubkey (utxo : Utxo) (pubkeyMap : AddressToPubkeyMap)
    (options : FillOptions) : Except TxBuildError Utxo :=
  if isP2trScript utxo.scriptPk && !jsTruthy utxo.pubkey then
    let pubkey := pubkeyMap utxo.address
    if options.requirePubkey && !jsTruthy pubkey then
      .error (TxBuildError.withComment ErrorCodes.MISSING_PUBKEY utxo.address)
    else if jsTruthy pubkey then
      .ok { utxo with pubkey := pubkey }
    else
      .ok utxo
  else
    .ok utxo

/-- The comment string attached to `UNCONFIRMED_UTXO`:
`hash: ${utxo.txid}, index: ${utxo.vout}`. -/
def unconfirmedMsg (utxo : Utxo) : String :=
  "hash: " ++ utxo.txid ++ ", index: " ++ toString utxo.vout

/-- The confirmation-checking pass of `prepareUtxoInputs`. The source
issues the `isTransactionConfirmed` calls through a bounded-concurrency
limiter under `Promise.all` with fail-fast aggregation; the `DataSource`
is modelled as a pure oracle and the pass as its fail-fast
sequentialization. -/
def checkConfirmed (source : String → Bool) : List Utxo → Except TxBuildError Unit
  | [] => .ok ()
  | utxo :: rest =>
    if source utxo.txid then checkConfirmed source rest
    else .error (TxBuildError.withComment ErrorCodes.UNCONFIRMED_UTXO (unconfirmedMsg utxo))

/-- The pubkey-fill pass of `prepareUtxoInputs`: `props.utxos.map(...)`
with a throwing callback, i.e. left-to-right with the first thrown error
aborting the whole map. -/
def fillAllUtxos (pubkeyMap : AddressToPubkeyMap) (requirePubkey : Bool) :
    List Utxo → Except TxBuildError (List Utxo)
  | [] => .ok []
  | utxo :: rest => do
    let filled ← fillUtxoPubkey utxo pubkeyMap ⟨requirePubkey⟩
    let restFilled ← fillAllUtxos pubkeyMap requirePubkey rest
    return filled :: restFilled

/-- `prepareUtxoInputs` from `transaction/utxo.ts`: map `fillUtxoPubkey`
over the batch (a thrown error aborts the map), then, when
`requireConfirmed` is set, run the confirmation pass; return the enriched
list in original order. An absent `pubkeyMap` is the empty map. -/
def prepareUtxoInputs (utxos : List Utxo) (source : String → Bool)
    (requirePubkey requireConfirmed : Bool) (pubkeyMap : AddressToPubkeyMap) :
    Except TxBuildError (List Utxo) := do
  let filled ← fillAllUtxos pubkeyMap requirePubkey utxos
  if requireConfirmed then
    checkConfirmed source filled
  return filled

/-- What the bech32 route of `decodeAddress` yields: a network and type
pair exactly when the gate matches, the codec succeeds, and both if-chains
classify. -/
def bech32BranchYield (s : String) : Option (NetworkType × AddressType) :=
  if bech32Gate s then
    match fromBech32? s with
    | some r =>
      match bech32Network r.hrp, bech32Type r.version r.data.length with
      | some n, some t => some (n, t)
      | _, _ => none
    | none => none
  else none

/-- What the base58check route of `decodeAddress` yields. -/
def base58BranchYield (s : String) : Option (NetworkType × AddressType) :=
  if bech32Gate s then none
  else
    match fromBase58Check? s with
    | some r => base58ClassifyVersion r.version
    | none => none

/-- The network the round trip of `publicKeyToAddress` and `decodeAddress`
actually lands on: the requested one, except that the base58check-encoded
types (P2PKH and P2SH_P2WPKH) under REGTEST decode as TESTNET, since
regtest shares testnet's version bytes and the testnet arms of
`decodeAddress` come first. -/
def roundTripNetworkType (t : AddressType) (n : NetworkType) : NetworkType :=
  if (t = AddressType.P2PKH ∨ t = AddressType.P2SH_P2WPKH) ∧ n = NetworkType.REGTEST then
    NetworkType.TESTNET
  else n

lemma bech32Type_ne_p2sh {v l : Nat} {t : AddressType} (h : bech32Type v l = some t) :
    t ≠ AddressType.P2SH := by
  unfold bech32Type at h
  repeat' split at h
  all_goals simp_all
  all_goals (subst h ; simp)

lemma base58Classify_ne_p2sh {v : Nat} {p : NetworkType × AddressType}
    (h : base58ClassifyVersion v = some p) : p.2 ≠ AddressType.P2SH := by
  unfold base58ClassifyVersion at h
  repeat' split at h
  all_goals simp_all
  all_goals (subst h ; simp)

/-- C5: for every address string, the `dust` field of the record returned
by `decodeAddress` is the fixed function `getAddressTypeDust` of its
`addressType` field alone, with values 294 for P2WPKH, 330 for P2TR and
546 for every other type including UNKNOWN. -/
theorem decodeAddress_dust_pure_function :
    (∀ s : String,
      (decodeAddress s).dust = getAddressTypeDust (decodeAddress s).addressType) ∧
    getAddressTypeDust AddressType.P2WPKH = 294 ∧
    getAddressTypeDust AddressType.P2TR = 330 ∧
    (∀ t : AddressType, t ≠ AddressType.P2WPKH → t ≠ AddressType.P2TR →
      getAddressTypeDust t = 546) := by
  refine ⟨fun s => ?_, rfl, rfl, fun t h1 h2 => ?_⟩
  · unfold decodeAddress
    split
    · cases hb : fromBech32? s with
      | none => simp [fallbackDecoded, getAddressTypeDust]
      | some r =>
        simp only
        cases hn : bech32Network r.hrp with
        | none => simp [fallbackDecoded, getAddressTypeDust]
        | some n =>
          cases ht : bech32Type r.version r.data.length with
          | none => simp [fallbackDecoded, getAddressTypeDust]
          | some t => simp
    · cases hb : fromBase58Check? s with
      | none => simp [fallbackDecoded, getAddressTypeDust]
      | some r =>
        simp only
        cases hc : base58ClassifyVersion r.version with
        | none => simp [fallbackDecoded, getAddressTypeDust]
        | some p => simp
  · unfold getAddressTypeDust
    rw [if_neg h1, if_neg h2]

/-- Witness for C5 at the concrete inputs "hello" and UNKNOWN. -/
theorem decodeAddress_dust_pure_function_witness :
    (decodeAddress "hello").dust =
      getAddressTypeDust (decodeAddress "hello").addressType ∧
    getAddressTypeDust AddressType.UNKNOWN = 546 :=
  ⟨decodeAddress_dust_pure_function.1 "hello",
   decodeAddress_dust_pure_function.2.2.2 AddressType.UNKNOWN (by decide) (by decide)⟩

/-- C4: `decodeAddress` never classifies any input string as plain P2SH;
a base58check string whose version byte is one of the scriptHash table
entries is classified as P2SH_P2WPKH. -/
theorem decodeAddress_never_plain_p2sh :
    (∀ s : String, (decodeAddress s).addressType ≠ AddressType.P2SH) ∧
    (∀ (s : String) (r : Base58CheckResult), bech32Gate s = false →
      fromBase58Check? s = some r →
      (r.version = mainnet.scriptHash ∨ r.version = testnet.scriptHash ∨
        r.version = regtest.scriptHash) →
      (decodeAddress s).addressType = AddressType.P2SH_P2WPKH) := by
  constructor
  · intro s
    unfold decodeAddress
    split
    · cases hb : fromBech32? s with
      | none => simp [fallbackDecoded]
      | some r =>
        simp only
        cases hn : bech32Network r.hrp with
        | none => simp [fallbackDecoded]
        | some n =>
          cases ht : bech32Type r.version r.data.length with
          | none => simp [fallbackDecoded]
          | some t => simpa using bech32Type_ne_p2sh ht
    · cases hb : fromBase58Check? s with
      | none => simp [fallbackDecoded]
      | some r =>
        simp only
        cases hc : base58ClassifyVersion r.version with
        | none => simp [fallbackDecoded]
        | some p => simpa using base58Classify_ne_p2sh hc
  · intro s r hg hb hv
    unfold decodeAddress
    rw [hg, if_neg (by simp : ¬(false = true)), hb]
    dsimp only
    rcases hv with hv | hv | hv <;> rw [hv] <;> rfl

/-- Witness for C4 at the concrete base58check address "30501"
(version byte 0x05 = mainnet scriptHash, payload [0x01]). -/
theorem decodeAddress_never_plain_p2sh_witness :
    (decodeAddress "30501").addressType ≠ AddressType.P2SH ∧
    bech32Gate "30501" = false ∧
    fromBase58Check? "30501" = some ⟨5, [1]⟩ ∧
    (decodeAddress "30501").addressType = AddressType.P2SH_P2WPKH :=
  ⟨decodeAddress_never_plain_p2sh.1 "30501", by decide, by decide,
   decodeAddress_never_plain_p2sh.2 "30501" ⟨5, [1]⟩ (by decide) (by decide) (Or.inl rfl)⟩

/-- C3: `decodeAddress` is total — every input string, including malformed
and empty ones, produces a value (a classified record or the universal
fallback; decode failures are swallowed) — and whenever neither the
bech32 branch nor the base58check branch yields both a network and a
type, the result is exactly
`{ addressType: UNKNOWN, networkType: MAINNET, dust: 546 }`. -/
theorem decodeAddress_total_fallback :
    (∀ s : String, decodeAddress s = fallbackDecoded ∨
      ∃ p : NetworkType × AddressType,
        decodeAddress s = ⟨p.1, p.2, getAddressTypeDust p.2⟩) ∧
    (∀ s : String, bech32BranchYield s = none → base58BranchYield s = none →
      decodeAddress s = ⟨NetworkType.MAINNET, AddressType.UNKNOWN, 546⟩) := by
  constructor
  · intro s
    unfold decodeAddress
    split
    · cases hb : fromBech32? s with
      | none => exact Or.inl rfl
      | some r =>
        simp only
        cases hn : bech32Network r.hrp with
        | none => exact Or.inl rfl
        | some n =>
          cases ht : bech32Type r.version r.data.length with
          | none => exact Or.inl rfl
          | some t => exact Or.inr ⟨(n, t), rfl⟩
    · cases hb : fromBase58Check? s with
      | none => exact Or.inl rfl
      | some r =>
        simp only
        cases hc : base58ClassifyVersion r.version with
        | none => exact Or.inl rfl
        | some p => exact Or.inr ⟨p, rfl⟩
  · intro s h1 h2
    unfold decodeAddress
    unfold bech32BranchYield at h1
    unfold base58BranchYield at h2
    split
    · rename_i hg
      rw [if_pos hg] at h1
      cases hb : fromBech32? s with
      | none => rfl
      | some r =>
        rw [hb] at h1
        simp only at h1 ⊢
        cases hn : bech32Network r.hrp with
        | none => rfl
        | some n =>
          cases ht : bech32Type r.version r.data.length with
          | none => rfl
          | some t => rw [hn, ht] at h1 ; exact Option.noConfusion h1
    · rename_i hg
      rw [if_neg hg] at h2
      cases hb : fromBase58Check? s with
      | none => rfl
      | some r =>
        rw [hb] at h2
        simp only at h2 ⊢
        cases hc : base58ClassifyVersion r.version with
        | none => rfl
        | some p => rw [hc] at h2 ; simp at h2

/-- Witness for C3 at the concrete malformed input "hello" (and the empty
string for the totality disjunction). -/
theorem decodeAddress_total_fallback_witness :
    (decodeAddress "" = fallbackDecoded ∨
      ∃ p : NetworkType × AddressType,
        decodeAddress "" = ⟨p.1, p.2, getAddressTypeDust p.2⟩) ∧
    bech32BranchYield "hello" = none ∧
    base58BranchYield "hello" = none ∧
    decodeAddress "hello" = ⟨NetworkType.MAINNET, AddressType.UNKNOWN, 546⟩ :=
  ⟨decodeAddress_total_fallback.1 "", by decide, by decide,
   decodeAddress_total_fallback.2 "hello" (by decide) (by decide)⟩

/-- C2: on a P2TR or P2SH_P2WPKH UTXO, `utxoToInput` fails with
`MISSING_PUBKEY` carrying the UTXO's address when the pubkey is absent
(or empty, which JS treats the same), and succeeds when a pubkey is
supplied, attaching exactly the one type-appropriate extra field:
`tapInternalKey` (the x-only pubkey) for P2TR with no `redeemScript`, or
`redeemScript` (the derived P2WPKH output script) for P2SH_P2WPKH with no
`tapInternalKey`. -/
theorem utxoToInput_pubkey_extras (u : Utxo)
    (ht : u.addressType = AddressType.P2TR ∨ u.addressType = AddressType.P2SH_P2WPKH) :
    (jsTruthy u.pubkey = false →
      utxoToInput u = .error ⟨ErrorCodes.MISSING_PUBKEY, some u.address⟩) ∧
    (jsTruthy u.pubkey = true →
      ∃ inp, utxoToInput u = .ok inp ∧
        ((u.addressType = AddressType.P2TR →
            inp.data.tapInternalKey =
              some (toXOnly (bufferFromHex (remove0x (u.pubkey.getD "")))) ∧
            inp.data.redeemScript = none) ∧
         (u.addressType = AddressType.P2SH_P2WPKH →
            inp.data.redeemScript = some (p2wpkhOutput (bufferFromHex (u.pubkey.getD ""))) ∧
            inp.data.tapInternalKey = none))) := by
  rcases ht with h | h
  · refine ⟨fun hp => ?_, fun hp => ?_⟩
    · simp [utxoToInput, h, TxBuildError.withComment, hp]
    · have he : utxoToInput u =
        .ok ⟨⟨u.txid, u.vout, ⟨u.value, bufferFromHex (remove0x u.scriptPk)⟩,
          some (toXOnly (bufferFromHex (remove0x (u.pubkey.getD "")))), none⟩, u⟩ := by
        simp [utxoToInput, h, hp]
      refine ⟨_, he, fun _ => ⟨rfl, rfl⟩, fun hc => ?_⟩
      rw [h] at hc ; exact absurd hc (by simp)
  · refine ⟨fun hp => ?_, fun hp => ?_⟩
    · simp [utxoToInput, h, TxBuildError.withComment, hp]
    · have he : utxoToInput u =
        .ok ⟨⟨u.txid, u.vout, ⟨u.value, bufferFromHex u.scriptPk⟩,
          none, some (p2wpkhOutput (bufferFromHex (u.pubkey.getD "")))⟩, u⟩ := by
        simp [utxoToInput, h, hp]
      refine ⟨_, he, fun hc => ?_, fun _ => ⟨rfl, rfl⟩⟩
      rw [h] at hc ; exact absurd hc (by simp)

/-- Witness for C2 at two concrete taproot UTXOs, one without and one
with a pubkey. -/
theorem utxoToInput_pubkey_extras_witness :
    utxoToInput ⟨"aa", 0, 1000, "5120cc", AddressType.P2TR, "addr1", none⟩ =
      .error ⟨ErrorCodes.MISSING_PUBKEY, some "addr1"⟩ ∧
    (∃ inp,
      utxoToInput ⟨"aa", 0, 1000, "5120cc", AddressType.P2TR, "addr1", some "02ab"⟩ =
        .ok inp ∧
      (((⟨"aa", 0, 1000, "5120cc", AddressType.P2TR, "addr1", some "02ab"⟩ : Utxo).addressType =
          AddressType.P2TR →
          inp.data.tapInternalKey = some (toXOnly (bufferFromHex (remove0x
            ((⟨"aa", 0, 1000, "5120cc", AddressType.P2TR, "addr1",
              some "02ab"⟩ : Utxo).pubkey.getD "")))) ∧
          inp.data.redeemScript = none) ∧
       ((⟨"aa", 0, 1000, "5120cc", AddressType.P2TR, "addr1", some "02ab"⟩ : Utxo).addressType =
          AddressType.P2SH_P2WPKH →
          inp.data.redeemScript = some (p2wpkhOutput (bufferFromHex
            ((⟨"aa", 0, 1000, "5120cc", AddressType.P2TR, "addr1",
              some "02ab"⟩ : Utxo).pubkey.getD ""))) ∧
          inp.data.tapInternalKey = none))) :=
  ⟨(utxoToInput_pubkey_extras ⟨"aa", 0, 1000, "5120cc", AddressType.P2TR, "addr1", none⟩
      (Or.inl rfl)).1 (by decide),
   (utxoToInput_pubkey_extras ⟨"aa", 0, 1000, "5120cc", AddressType.P2TR, "addr1", some "02ab"⟩
      (Or.inl rfl)).2 (by decide)⟩

/-- C6: a P2WPKH or P2SH UTXO adapts to an input holding only the signing
reference (hash = txid, index = vout) and the witness-utxo descriptor
(value and decoded scriptPk bytes) with neither `tapInternalKey` nor
`redeemScript`; a P2PKH, P2WSH or UNKNOWN UTXO makes `utxoToInput` fail
with `UNSUPPORTED_ADDRESS_TYPE`. -/
theorem utxoToInput_witness_only_and_unsupported (u : Utxo) :
    (u.addressType = AddressType.P2WPKH →
      utxoToInput u = .ok ⟨⟨u.txid, u.vout, ⟨u.value, bufferFromHex (remove0x u.scriptPk)⟩,
        none, none⟩, u⟩) ∧
    (u.addressType = AddressType.P2SH →
      utxoToInput u = .ok ⟨⟨u.txid, u.vout, ⟨u.value, bufferFromHex u.scriptPk⟩,
        none, none⟩, u⟩) ∧
    ((u.addressType = AddressType.P2PKH ∨ u.addressType = AddressType.P2WSH ∨
        u.addressType = AddressType.UNKNOWN) →
      utxoToInput u = .error ⟨ErrorCodes.UNSUPPORTED_ADDRESS_TYPE, none⟩) := by
  refine ⟨fun h => ?_, fun h => ?_, fun h => ?_⟩
  · simp [utxoToInput, h]
  · simp [utxoToInput, h]
  · rcases h with h | h | h <;> simp [utxoToInput, h]

/-- Witness for C6: the spec's example scenario (a P2WPKH UTXO becomes a
witness-utxo-only input), a P2SH UTXO, and an UNKNOWN UTXO. -/
theorem utxoToInput_witness_only_and_unsupported_witness :
    utxoToInput ⟨"aa", 0, 10000, "0014bb", AddressType.P2WPKH, "tb1qx", none⟩ =
      .ok ⟨⟨"aa", 0, ⟨10000, bufferFromHex (remove0x "0014bb")⟩, none, none⟩,
        ⟨"aa", 0, 10000, "0014bb", AddressType.P2WPKH, "tb1qx", none⟩⟩ ∧
    utxoToInput ⟨"bb", 1, 2000, "a914cc", AddressType.P2SH, "3x", none⟩ =
      .ok ⟨⟨"bb", 1, ⟨2000, bufferFromHex "a914cc"⟩, none, none⟩,
        ⟨"bb", 1, 2000, "a914cc", AddressType.P2SH, "3x", none⟩⟩ ∧
    utxoToInput ⟨"cc", 2, 3000, "00", AddressType.UNKNOWN, "y", none⟩ =
      .error ⟨ErrorCodes.UNSUPPORTED_ADDRESS_TYPE, none⟩ :=
  ⟨(utxoToInput_witness_only_and_unsupported
      ⟨"aa", 0, 10000, "0014bb", AddressType.P2WPKH, "tb1qx", none⟩).1 rfl,
   (utxoToInput_witness_only_and_unsupported
      ⟨"bb", 1, 2000, "a914cc", AddressType.P2SH, "3x", none⟩).2.1 rfl,
   (utxoToInput_witness_only_and_unsupported
      ⟨"cc", 2, 3000, "00", AddressType.UNKNOWN, "y", none⟩).2.2 (Or.inr (Or.inr rfl))⟩

/-- C8: `fillUtxoPubkey` is idempotent — applying it a second time with
the same map and options (composed in the error monad) gives exactly the
result of applying it once. -/
theorem fillUtxoPubkey_idempotent (u : Utxo) (m : AddressToPubkeyMap) (o : FillOptions) :
    (fillUtxoPubkey u m o).bind (fun filled => fillUtxoPubkey filled m o) =
      fillUtxoPubkey u m o := by
  by_cases hA : (isP2trScript u.scriptPk && !jsTruthy u.pubkey) = true
  · by_cases hC : jsTruthy (m u.address) = true
    · by_cases hB : (o.requirePubkey && !jsTruthy (m u.address)) = true
      · rw [hC] at hB ; simp at hB
      · simp [fillUtxoPubkey, hA, hB, hC, Except.bind]
    · have hf : jsTruthy (m u.address) = false := by
        revert hC ; cases jsTruthy (m u.address) <;> simp
      by_cases hreq : o.requirePubkey = true
      · simp [fillUtxoPubkey, hA, hf, hreq, Except.bind]
      · have hreqf : o.requirePubkey = false := by
          revert hreq ; cases o.requirePubkey <;> simp
        simp [fillUtxoPubkey, hA, hf, hreqf, Except.bind]
  · simp [fillUtxoPubkey, hA, Except.bind]

lemma fillUtxoPubkey_ids {u : Utxo} {m : AddressToPubkeyMap} {o : FillOptions} {filled : Utxo}
    (h : fillUtxoPubkey u m o = .ok filled) : filled.txid = u.txid ∧ filled.vout = u.vout := by
  unfold fillUtxoPubkey at h
  split at h
  · dsimp only at h
    split at h
    · exact Except.noConfusion h
    · split at h
      · injection h with h ; subst h ; exact ⟨rfl, rfl⟩
      · injection h with h ; subst h ; exact ⟨rfl, rfl⟩
  · injection h with h ; subst h ; exact ⟨rfl, rfl⟩

lemma fillAllUtxos_ids {m : AddressToPubkeyMap} {rp : Bool} :
    ∀ {l l' : List Utxo}, fillAllUtxos m rp l = .ok l' →
      List.Forall₂ (fun a b => b.txid = a.txid ∧ b.vout = a.vout) l l'
  | [], l', h => by
    injection h with h ; subst h ; exact List.Forall₂.nil
  | u :: rest, l', h => by
    rw [fillAllUtxos] at h
    cases hf : fillUtxoPubkey u m ⟨rp⟩ with
    | error e => rw [hf] at h ; exact Except.noConfusion h
    | ok filled =>
      rw [hf] at h
      cases hr : fillAllUtxos m rp rest with
      | error e => rw [hr] at h ; exact Except.noConfusion h
      | ok restFilled =>
        rw [hr] at h
        have h' : filled :: restFilled = l' := by exact congrArg id (Except.ok.inj h)
        subst h'
        exact List.Forall₂.cons (fillUtxoPubkey_ids hf) (fillAllUtxos_ids hr)

lemma forall2_mem_right {α β : Type} {R : α → β → Prop} :
    ∀ {l : List α} {l' : List β}, List.Forall₂ R l l' → ∀ {b : β}, b ∈ l' → ∃ a ∈ l, R a b := by
  intro l l' h
  induction h with
  | nil => intro b hb ; simp at hb
  | cons hR _ ih =>
    intro b hb
    rcases List.mem_cons.mp hb with hb | hb
    · subst hb ; exact ⟨_, List.mem_cons_self _ _, hR⟩
    · rcases ih hb with ⟨a, ha, hab⟩
      exact ⟨a, List.mem_cons_of_mem _ ha, hab⟩

lemma checkConfirmed_of_unconfirmed (source : String → Bool) :
    ∀ (l : List Utxo), (∃ u ∈ l, source u.txid = false) →
      ∃ u ∈ l, source u.txid = false ∧
        checkConfirmed source l =
          .error ⟨ErrorCodes.UNCONFIRMED_UTXO, some (unconfirmedMsg u)⟩
  | [], h => by simp at h
  | u :: rest, h => by
    by_cases hu : source u.txid = true
    · have hrest : ∃ v ∈ rest, source v.txid = false := by
        rcases h with ⟨v, hv, hf⟩
        rcases List.mem_cons.mp hv with hv | hv
        · subst hv ; rw [hu] at hf ; exact absurd hf (by simp)
        · exact ⟨v, hv, hf⟩
      rcases checkConfirmed_of_unconfirmed source rest hrest with ⟨v, hv, hf, he⟩
      exact ⟨v, List.mem_cons_of_mem _ hv, hf,
        by simp [checkConfirmed, hu, he, TxBuildError.withComment]⟩
    · have hf : source u.txid = false := by revert hu ; cases source u.txid <;> simp
      exact ⟨u, List.mem_cons_self _ _, hf,
        by simp [checkConfirmed, hf, TxBuildError.withComment]⟩

/-- C7: when `requireConfirmed` is set and the source reports some UTXO of
the batch unconfirmed (and the preceding pubkey-fill pass itself
succeeded, producing `filled`), `prepareUtxoInputs` fails as a whole with
`UNCONFIRMED_UTXO` identifying the txid and vout of an unconfirmed UTXO
of the batch — which the fill pass preserved from one of the original
UTXOs — and returns no result list. -/
theorem prepareUtxoInputs_unconfirmed_fails
    (utxos filled : List Utxo) (source : String → Bool)
    (requirePubkey : Bool) (pubkeyMap : AddressToPubkeyMap)
    (hfill : fillAllUtxos pubkeyMap requirePubkey utxos = .ok filled)
    (hunconf : ∃ u ∈ filled, source u.txid = false) :
    ∃ u ∈ filled,
      source u.txid = false ∧
      (∃ orig ∈ utxos, u.txid = orig.txid ∧ u.vout = orig.vout) ∧
      prepareUtxoInputs utxos source requirePubkey true pubkeyMap =
        .error ⟨ErrorCodes.UNCONFIRMED_UTXO, some (unconfirmedMsg u)⟩ := by
  rcases checkConfirmed_of_unconfirmed source filled hunconf with ⟨u, hu, hf, he⟩
  refine ⟨u, hu, hf, ?_, ?_⟩
  · rcases forall2_mem_right (fillAllUtxos_ids hfill) hu with ⟨orig, horig, hids⟩
    exact ⟨orig, horig, hids.1, hids.2⟩
  · unfold prepareUtxoInputs
    rw [hfill]
    show (do
      let _ ← (if true = true then checkConfirmed source filled else pure ())
      pure filled : Except TxBuildError (List Utxo)) = _
    rw [if_pos rfl, he]
    rfl

/-- Witness for C7 at a one-element batch whose source reports false. -/
theorem prepareUtxoInputs_unconfirmed_fails_witness :
    ∃ u ∈ [(⟨"aa", 0, 1000, "00", AddressType.P2WPKH, "x", none⟩ : Utxo)],
      (fun _ => false : String → Bool) u.txid = false ∧
      (∃ orig ∈ [(⟨"aa", 0, 1000, "00", AddressType.P2WPKH, "x", none⟩ : Utxo)],
        u.txid = orig.txid ∧ u.vout = orig.vout) ∧
      prepareUtxoInputs [⟨"aa", 0, 1000, "00", AddressType.P2WPKH, "x", none⟩]
          (fun _ => false) false true (fun _ => none) =
        .error ⟨ErrorCodes.UNCONFIRMED_UTXO, some (unconfirmedMsg u)⟩ :=
  prepareUtxoInputs_unconfirmed_fails
    [⟨"aa", 0, 1000, "00", AddressType.P2WPKH, "x", none⟩]
    [⟨"aa", 0, 1000, "00", AddressType.P2WPKH, "x", none⟩]
    (fun _ => false) false (fun _ => none) rfl
    ⟨⟨"aa", 0, 1000, "00", AddressType.P2WPKH, "x", none⟩, by simp, rfl⟩

lemma data_0x_append (s : String) : ("0x" ++ s).data = '0' :: 'x' :: s.data := by
  rw [String.data_append] ; rfl

lemma startsWith_0x_append (s : String) : strStartsWith ("0x" ++ s) "0x" = true := by
  unfold strStartsWith
  rw [data_0x_append]
  rfl

lemma mk_data (s : String) : String.mk s.data = s := by cases s ; rfl

lemma remove0x_append (s : String) : remove0x ("0x" ++ s) = s := by
  unfold remove0x
  rw [startsWith_0x_append, if_pos rfl, data_0x_append]
  exact mk_data s

lemma remove0x_of_not {s : String} (h : strStartsWith s "0x" = false) : remove0x s = s := by
  unfold remove0x
  rw [h]
  rfl

lemma bufferFromHex_0x (s : String) : bufferFromHex ("0x" ++ s) = [] := by
  unfold bufferFromHex
  rw [data_0x_append]
  rfl

lemma isEmpty_0x_append (s : String) : ("0x" ++ s).data.isEmpty = false := by
  rw [data_0x_append] ; rfl

/-- C10: `utxoToInput` strips a `0x` prefix only in some branches: for
P2WPKH (scriptPk) and P2TR (scriptPk and pubkey) the prefixed and
unprefixed forms produce the same input data, whereas the P2SH and
P2SH_P2WPKH branches hex-decode scriptPk as-is, so a `0x` prefix there
changes the input (the script bytes decode to `[]`), and a value that is
hex-decoded as-is (as the P2SH_P2WPKH pubkey is) loses its bytes entirely
under a `0x` prefix. -/
theorem utxoToInput_hex_prefix_asymmetry :
    (∀ (u : Utxo) (s : String), u.addressType = AddressType.P2WPKH →
      strStartsWith s "0x" = false →
      (utxoToInput { u with scriptPk := "0x" ++ s }).map TxInput.data =
        (utxoToInput { u with scriptPk := s }).map TxInput.data) ∧
    (∀ (u : Utxo) (s p : String), u.addressType = AddressType.P2TR →
      strStartsWith s "0x" = false → strStartsWith p "0x" = false → p.data.isEmpty = false →
      (utxoToInput { u with scriptPk := "0x" ++ s, pubkey := some ("0x" ++ p) }).map
          TxInput.data =
        (utxoToInput { u with scriptPk := s, pubkey := some p }).map TxInput.data) ∧
    (∀ (u : Utxo) (s : String), u.addressType = AddressType.P2SH →
      bufferFromHex s ≠ [] →
      (utxoToInput { u with scriptPk := "0x" ++ s }).map TxInput.data ≠
        (utxoToInput { u with scriptPk := s }).map TxInput.data) ∧
    (∀ (u : Utxo) (s p : String), u.addressType = AddressType.P2SH_P2WPKH →
      p.data.isEmpty = false → bufferFromHex s ≠ [] →
      (utxoToInput { u with scriptPk := "0x" ++ s, pubkey := some p }).map TxInput.data ≠
        (utxoToInput { u with scriptPk := s, pubkey := some p }).map TxInput.data) ∧
    (∀ (p : String), bufferFromHex p ≠ [] → bufferFromHex ("0x" ++ p) ≠ bufferFromHex p) := by
  refine ⟨?_, ?_, ?_, ?_, ?_⟩
  · intro u s h hns
    simp [utxoToInput, h, remove0x_append, remove0x_of_not hns]
    rfl
  · intro u s p h hns hnp hpe
    simp [utxoToInput, h, jsTruthy, isEmpty_0x_append, hpe,
      remove0x_append, remove0x_of_not hns, remove0x_of_not hnp]
    rfl
  · intro u s h hne heq
    simp [utxoToInput, h, bufferFromHex_0x] at heq
    have h2 := congrArg
      (fun x => match x with
        | Except.ok d => d.witnessUtxo.script
        | Except.error _ => ([] : List Nat))
      heq
    exact hne ((h2 : ([] : List Nat) = bufferFromHex s)).symm
  · intro u s p h hpe hne heq
    simp [utxoToInput, h, jsTruthy, hpe, bufferFromHex_0x] at heq
    have h2 := congrArg
      (fun x => match x with
        | Except.ok d => d.witnessUtxo.script
        | Except.error _ => ([] : List Nat))
      heq
    exact hne ((h2 : ([] : List Nat) = bufferFromHex s)).symm
  · intro p hne heq
    rw [bufferFromHex_0x] at heq
    exact hne heq.symm

/-- Witness for C10 at concrete UTXOs of each of the four branches and a
concrete pubkey hex string. -/
theorem utxoToInput_hex_prefix_asymmetry_witness :
    ((utxoToInput { (⟨"aa", 0, 5, "", AddressType.P2WPKH, "x", none⟩ : Utxo) with
        scriptPk := "0x" ++ "0014bb" }).map TxInput.data =
      (utxoToInput { (⟨"aa", 0, 5, "", AddressType.P2WPKH, "x", none⟩ : Utxo) with
        scriptPk := "0014bb" }).map TxInput.data) ∧
    ((utxoToInput { (⟨"aa", 0, 5, "", AddressType.P2TR, "x", none⟩ : Utxo) with
        scriptPk := "0x" ++ "5120cc", pubkey := some ("0x" ++ "02ab") }).map TxInput.data =
      (utxoToInput { (⟨"aa", 0, 5, "", AddressType.P2TR, "x", none⟩ : Utxo) with
        scriptPk := "5120cc", pubkey := some "02ab" }).map TxInput.data) ∧
    ((utxoToInput { (⟨"aa", 0, 5, "", AddressType.P2SH, "x", none⟩ : Utxo) with
        scriptPk := "0x" ++ "a914cc" }).map TxInput.data ≠
      (utxoToInput { (⟨"aa", 0, 5, "", AddressType.P2SH, "x", none⟩ : Utxo) with
        scriptPk := "a914cc" }).map TxInput.data) ∧
    ((utxoToInput { (⟨"aa", 0, 5, "", AddressType.P2SH_P2WPKH, "x", none⟩ : Utxo) with
        scriptPk := "0x" ++ "a914cc", pubkey := some "02ab" }).map TxInput.data ≠
      (utxoToInput { (⟨"aa", 0, 5, "", AddressType.P2SH_P2WPKH, "x", none⟩ : Utxo) with
        scriptPk := "a914cc", pubkey := some "02ab" }).map TxInput.data) ∧
    bufferFromHex ("0x" ++ "02ab") ≠ bufferFromHex "02ab" :=
  ⟨utxoToInput_hex_prefix_asymmetry.1
      ⟨"aa", 0, 5, "", AddressType.P2WPKH, "x", none⟩ "0014bb" rfl (by decide),
   utxoToInput_hex_prefix_asymmetry.2.1
      ⟨"aa", 0, 5, "", AddressType.P2TR, "x", none⟩ "5120cc" "02ab" rfl
      (by decide) (by decide) (by decide),
   utxoToInput_hex_prefix_asymmetry.2.2.1
      ⟨"aa", 0, 5, "", AddressType.P2SH, "x", none⟩ "a914cc" rfl (by decide),
   utxoToInput_hex_prefix_asymmetry.2.2.2.1
      ⟨"aa", 0, 5, "", AddressType.P2SH_P2WPKH, "x", none⟩ "a914cc" "02ab" rfl
      (by decide) (by decide),
   utxoToInput_hex_prefix_asymmetry.2.2.2.2 "02ab" (by decide)⟩

lemma hexDigit?_lt {c : Char} {m : Nat} (h : hexDigit? c = some m) : m < 16 := by
  unfold hexDigit? at h
  dsimp only at h
  repeat' split at h
  all_goals (try exact Option.noConfusion h)
  all_goals (injection h with h ; omega)

lemma bufferFromHexAux_lt : ∀ (cs : List Char), ∀ b ∈ bufferFromHexAux cs, b < 256
  | [] => by simp [bufferFromHexAux]
  | [c] => by simp [bufferFromHexAux]
  | c1 :: c2 :: rest => by
    intro b hb
    rw [bufferFromHexAux] at hb
    cases h1 : hexDigit? c1 with
    | none => rw [h1] at hb ; simp at hb
    | some h =>
      cases h2 : hexDigit? c2 with
      | none => rw [h1, h2] at hb ; simp at hb
      | some l =>
        rw [h1, h2] at hb
        simp only [List.mem_cons] at hb
        rcases hb with hb | hb
        · have := hexDigit?_lt h1
          have := hexDigit?_lt h2
          omega
        · exact bufferFromHexAux_lt rest b hb

lemma bufferFromHex_lt (s : String) : ∀ b ∈ bufferFromHex s, b < 256 :=
  bufferFromHexAux_lt s.data

lemma hexDigit?_hexChar : ∀ n < 16, hexDigit? (hexChar n) = some n := by decide

lemma decodeHexStrict_cons {v : Nat} (hv : v < 256) (cs : List Char) :
    decodeHexStrict (encHexByte v ++ cs) = (decodeHexStrict cs).map (fun bs => v :: bs) := by
  have h1 : hexDigit? (hexChar (v / 16)) = some (v / 16) := hexDigit?_hexChar _ (by omega)
  have h2 : hexDigit? (hexChar (v % 16)) = some (v % 16) := hexDigit?_hexChar _ (by omega)
  show decodeHexStrict (hexChar (v / 16) :: hexChar (v % 16) :: cs) = _
  rw [decodeHexStrict, h1, h2]
  have hdm : 16 * (v / 16) + v % 16 = v := by omega
  dsimp only
  simp only [hdm]

lemma decodeHexStrict_enc : ∀ (bytes : List Nat), (∀ b ∈ bytes, b < 256) →
    decodeHexStrict ((bytes.map encHexByte).flatten) = some bytes
  | [], _ => rfl
  | b :: rest, h => by
    rw [List.map_cons, List.flatten_cons,
      decodeHexStrict_cons (h b (List.mem_cons_self _ _)),
      decodeHexStrict_enc rest (fun x hx => h x (List.mem_cons_of_mem _ hx))]
    rfl

lemma fromBase58Check?_encode {v : Nat} {h : List Nat} (hv : v < 256)
    (hh : ∀ b ∈ h, b < 256) :
    fromBase58Check? (encodeAddr (.base58 v h)) = some ⟨v, h⟩ := by
  show fromBase58Check? (String.mk (b58Lead v :: (encHexByte v ++ (h.map encHexByte).flatten))) = _
  unfold fromBase58Check?
  dsimp only
  rw [decodeHexStrict_cons hv, decodeHexStrict_enc h hh]
  simp

lemma takeWhile_ne_one (l rest : List Char) (h : ∀ c ∈ l, c ≠ '1') :
    (l ++ '1' :: rest).takeWhile (fun c => c != '1') = l := by
  induction l with
  | nil => simp [List.takeWhile]
  | cons c cs ih =>
    have hc : (c != '1') = true := by
      have := h c (List.mem_cons_self _ _)
      simp [this]
    simp only [List.cons_append, List.takeWhile_cons, hc, if_true]
    rw [ih (fun x hx => h x (List.mem_cons_of_mem _ hx))]

lemma dropWhile_ne_one (l rest : List Char) (h : ∀ c ∈ l, c ≠ '1') :
    (l ++ '1' :: rest).dropWhile (fun c => c != '1') = '1' :: rest := by
  induction l with
  | nil => simp [List.dropWhile]
  | cons c cs ih =>
    have hc : (c != '1') = true := by
      have := h c (List.mem_cons_self _ _)
      simp [this]
    simp only [List.cons_append, List.dropWhile_cons, hc, if_true]
    exact ih (fun x hx => h x (List.mem_cons_of_mem _ hx))

lemma splitLastOne_append (hrp dataChars : List Char)
    (hh : ∀ c ∈ hrp, c ≠ '1') (hd : ∀ c ∈ dataChars, c ≠ '1') :
    splitLastOne (hrp ++ '1' :: dataChars) = some (hrp, dataChars) := by
  unfold splitLastOne
  have hrev : (hrp ++ '1' :: dataChars).reverse = dataChars.reverse ++ '1' :: hrp.reverse := by
    simp
  dsimp only
  rw [hrev]
  have hdrev : ∀ c ∈ dataChars.reverse, c ≠ '1' := fun c hc => hd c (List.mem_reverse.mp hc)
  rw [dropWhile_ne_one _ _ hdrev, takeWhile_ne_one _ _ hdrev]
  simp

lemma decB32_encB32 : ∀ n < 32, decB32 (encB32 n) = some n := by decide

lemma encB32_ne_one : ∀ n < 32, encB32 n ≠ '1' := by decide

lemma mem_encodeByteB32_ne_one {b : Nat} (hb : b < 256) :
    ∀ c ∈ encodeByteB32 b, c ≠ '1' := by
  intro c hc
  rcases List.mem_cons.mp hc with hc | hc
  · subst hc ; exact encB32_ne_one _ (by omega)
  · rcases List.mem_cons.mp hc with hc | hc
    · subst hc ; exact encB32_ne_one _ (by omega)
    · simp at hc

lemma decodeB32Bytes_enc : ∀ (prog : List Nat), (∀ b ∈ prog, b < 256) →
    decodeB32Bytes ((prog.map encodeByteB32).flatten) = some prog
  | [], _ => rfl
  | b :: rest, h => by
    have hb : b < 256 := h b (List.mem_cons_self _ _)
    have h1 : decB32 (encB32 (b / 32)) = some (b / 32) := decB32_encB32 _ (by omega)
    have h2 : decB32 (encB32 (b % 32)) = some (b % 32) := decB32_encB32 _ (by omega)
    rw [List.map_cons, List.flatten_cons]
    show decodeB32Bytes (encB32 (b / 32) :: encB32 (b % 32) :: (rest.map encodeByteB32).flatten) = _
    rw [decodeB32Bytes, h1, h2]
    dsimp only
    rw [if_pos (by omega : b / 32 < 8),
      decodeB32Bytes_enc rest (fun x hx => h x (List.mem_cons_of_mem _ hx))]
    have hdm : 32 * (b / 32) + b % 32 = b := by omega
    simp [hdm]

lemma flatten_encodeByteB32_ne_one {prog : List Nat} (hp : ∀ b ∈ prog, b < 256) :
    ∀ c ∈ (prog.map encodeByteB32).flatten, c ≠ '1' := by
  intro c hc
  rcases List.mem_flatten.mp hc with ⟨l, hl, hcl⟩
  rcases List.mem_map.mp hl with ⟨b, hb, rfl⟩
  exact mem_encodeByteB32_ne_one (hp b hb) c hcl

lemma fromBech32?_encode {hrp : String} {v : Nat} {prog : List Nat}
    (hh : ∀ c ∈ hrp.data, c ≠ '1') (hv : v < 32) (hp : ∀ b ∈ prog, b < 256) :
    fromBech32? (encodeAddr (.bech32 hrp v prog)) = some ⟨hrp, v, prog⟩ := by
  show fromBech32? (String.mk (hrp.data ++ '1' :: encB32 v :: (prog.map encodeByteB32).flatten)) = _
  unfold fromBech32?
  dsimp only
  have hd : ∀ c ∈ encB32 v :: (prog.map encodeByteB32).flatten, c ≠ '1' := by
    intro c hc
    rcases List.mem_cons.mp hc with hc | hc
    · subst hc ; exact encB32_ne_one _ hv
    · exact flatten_encodeByteB32_ne_one hp c hc
  rw [splitLastOne_append _ _ hh hd]
  dsimp only
  rw [decB32_encB32 _ hv, decodeB32Bytes_enc _ hp]

lemma hash160_length (l : List Nat) : (hash160 l).length = 20 := by
  simp [hash160]

lemma hash160_lt {l : List Nat} (hl : ∀ b ∈ l, b < 256) : ∀ b ∈ hash160 l, b < 256 := by
  intro b hb
  rcases List.mem_append.mp (List.mem_of_mem_take hb) with h | h
  · exact hl b h
  · rw [List.eq_of_mem_replicate h] ; omega

lemma taprootTweak_length (l : List Nat) : (taprootTweak l).length = 32 := by
  simp [taprootTweak]

lemma taprootTweak_lt {l : List Nat} (hl : ∀ b ∈ l, b < 256) :
    ∀ b ∈ taprootTweak l, b < 256 := by
  intro b hb
  rcases List.mem_append.mp (List.mem_of_mem_take hb) with h | h
  · exact hl b h
  · rw [List.eq_of_mem_replicate h] ; omega

lemma toXOnly_lt {l : List Nat} (hl : ∀ b ∈ l, b < 256) : ∀ b ∈ toXOnly l, b < 256 := by
  intro b hb
  unfold toXOnly at hb
  split at hb
  · exact hl b hb
  · exact hl b (List.mem_of_mem_drop (List.mem_of_mem_take hb))

lemma p2wpkhOutput_lt {l : List Nat} (hl : ∀ b ∈ l, b < 256) :
    ∀ b ∈ p2wpkhOutput l, b < 256 := by
  intro b hb
  rcases List.mem_cons.mp hb with hb | hb
  · omega
  · rcases List.mem_cons.mp hb with hb | hb
    · omega
    · exact hash160_lt hl b hb

lemma decodeAddress_enc_p2wpkh (nt : NetworkType) (prog : List Nat)
    (hp : ∀ b ∈ prog, b < 256) (hl : prog.length = 20) :
    decodeAddress (encodeAddr (.bech32 (networkTypeToNetwork nt).bech32 0 prog)) =
      ⟨nt, AddressType.P2WPKH, 294⟩ := by
  cases nt with
  | MAINNET =>
    unfold decodeAddress
    dsimp only [networkTypeToNetwork, mainnet]
    rw [if_pos (show bech32Gate (encodeAddr (Addr.bech32 "bc" 0 prog)) = true from rfl),
        fromBech32?_encode (by decide) (by omega) hp]
    dsimp only
    rw [hl]
    rfl
  | TESTNET =>
    unfold decodeAddress
    dsimp only [networkTypeToNetwork, testnet]
    rw [if_pos (show bech32Gate (encodeAddr (Addr.bech32 "tb" 0 prog)) = true from rfl),
        fromBech32?_encode (by decide) (by omega) hp]
    dsimp only
    rw [hl]
    rfl
  | REGTEST =>
    unfold decodeAddress
    dsimp only [networkTypeToNetwork, regtest]
    rw [if_pos (show bech32Gate (encodeAddr (Addr.bech32 "bcrt" 0 prog)) = true from rfl),
        fromBech32?_encode (by decide) (by omega) hp]
    dsimp only
    rw [hl]
    rfl

lemma decodeAddress_enc_p2tr (nt : NetworkType) (prog : List Nat)
    (hp : ∀ b ∈ prog, b < 256) (hl : prog.length = 32) :
    decodeAddress (encodeAddr (.bech32 (networkTypeToNetwork nt).bech32 1 prog)) =
      ⟨nt, AddressType.P2TR, 330⟩ := by
  cases nt with
  | MAINNET =>
    unfold decodeAddress
    dsimp only [networkTypeToNetwork, mainnet]
    rw [if_pos (show bech32Gate (encodeAddr (Addr.bech32 "bc" 1 prog)) = true from rfl),
        fromBech32?_encode (by decide) (by omega) hp]
    dsimp only
    rw [hl]
    rfl
  | TESTNET =>
    unfold decodeAddress
    dsimp only [networkTypeToNetwork, testnet]
    rw [if_pos (show bech32Gate (encodeAddr (Addr.bech32 "tb" 1 prog)) = true from rfl),
        fromBech32?_encode (by decide) (by omega) hp]
    dsimp only
    rw [hl]
    rfl
  | REGTEST =>
    unfold decodeAddress
    dsimp only [networkTypeToNetwork, regtest]
    rw [if_pos (show bech32Gate (encodeAddr (Addr.bech32 "bcrt" 1 prog)) = true from rfl),
        fromBech32?_encode (by decide) (by omega) hp]
    dsimp only
    rw [hl]
    rfl

lemma decodeAddress_enc_base58 (v : Nat) (h : List Nat) (hv : v < 256)
    (hh : ∀ b ∈ h, b < 256)
    (hgate : bech32Gate (encodeAddr (.base58 v h)) = false)
    (nt : NetworkType) (t : AddressType)
    (hc : base58ClassifyVersion v = some (nt, t)) :
    decodeAddress (encodeAddr (.base58 v h)) = ⟨nt, t, getAddressTypeDust t⟩ := by
  unfold decodeAddress
  rw [hgate]
  rw [if_neg (by simp : ¬(false = true))]
  rw [fromBase58Check?_encode hv hh]
  dsimp only
  rw [hc]

/-- C1 (counterexample to the claim as stated): for the valid compressed
public key 02c6047f...9ee5 with addressType P2PKH and networkType REGTEST,
decoding the produced address yields networkType TESTNET, not the
requested REGTEST — the regtest base58check arms of `decodeAddress` are
dead because regtest shares testnet's version bytes and testnet is
matched first (the source marks them "do not work"). -/
theorem roundTrip_regtest_p2pkh_counterexample :
    (publicKeyToAddress "02c6047f9441ed7d6d3045406e95c07cd85c778e4b8cef3ca7abac09b95c709ee5"
        AddressType.P2PKH NetworkType.REGTEST).map
      (fun addr => (decodeAddress addr).networkType) = .ok NetworkType.TESTNET ∧
    NetworkType.TESTNET ≠ NetworkType.REGTEST := by
  constructor
  · rfl
  · decide

/-- C1 (amended): for every non-empty public key, every requested type
among P2PKH, P2WPKH, P2TR and P2SH_P2WPKH and every network,
`publicKeyToAddress` succeeds and `decodeAddress` on its result recovers
the requested addressType and its dust value, and recovers the requested
networkType except that the base58check-encoded types (P2PKH and
P2SH_P2WPKH) under REGTEST decode as TESTNET
(`roundTripNetworkType`). -/
theorem roundTrip_publicKeyToAddress_decodeAddress (pk : String)
    (hpk : pk.data.isEmpty = false)
    (t : AddressType) (n : NetworkType)
    (ht : t = AddressType.P2PKH ∨ t = AddressType.P2WPKH ∨
      t = AddressType.P2TR ∨ t = AddressType.P2SH_P2WPKH) :
    ∃ addr, publicKeyToAddress pk t n = .ok addr ∧
      decodeAddress addr = ⟨roundTripNetworkType t n, t, getAddressTypeDust t⟩ := by
  have hbytes := bufferFromHex_lt (remove0x pk)
  rcases ht with rfl | rfl | rfl | rfl
  · cases n with
    | MAINNET =>
      have hpay : publicKeyToPayment pk AddressType.P2PKH NetworkType.MAINNET =
          some ⟨encodeAddr (.base58 0x00 (hash160 (bufferFromHex (remove0x pk))))⟩ := by
        unfold publicKeyToPayment ; rw [hpk] ; rfl
      refine ⟨_, by unfold publicKeyToAddress ; rw [hpay], ?_⟩
      rw [decodeAddress_enc_base58 0x00 _ (by omega) (hash160_lt hbytes) rfl
        NetworkType.MAINNET AddressType.P2PKH (by decide)]
      rfl
    | TESTNET =>
      have hpay : publicKeyToPayment pk AddressType.P2PKH NetworkType.TESTNET =
          some ⟨encodeAddr (.base58 0x6f (hash160 (bufferFromHex (remove0x pk))))⟩ := by
        unfold publicKeyToPayment ; rw [hpk] ; rfl
      refine ⟨_, by unfold publicKeyToAddress ; rw [hpay], ?_⟩
      rw [decodeAddress_enc_base58 0x6f _ (by omega) (hash160_lt hbytes) rfl
        NetworkType.TESTNET AddressType.P2PKH (by decide)]
      rfl
    | REGTEST =>
      have hpay : publicKeyToPayment pk AddressType.P2PKH NetworkType.REGTEST =
          some ⟨encodeAddr (.base58 0x6f (hash160 (bufferFromHex (remove0x pk))))⟩ := by
        unfold publicKeyToPayment ; rw [hpk] ; rfl
      refine ⟨_, by unfold publicKeyToAddress ; rw [hpay], ?_⟩
      rw [decodeAddress_enc_base58 0x6f _ (by omega) (hash160_lt hbytes) rfl
        NetworkType.TESTNET AddressType.P2PKH (by decide)]
      rfl
  · have hpay : publicKeyToPayment pk AddressType.P2WPKH n =
        some ⟨encodeAddr (.bech32 (networkTypeToNetwork n).bech32 0
          (hash160 (bufferFromHex (remove0x pk))))⟩ := by
      unfold publicKeyToPayment ; rw [hpk] ; rfl
    refine ⟨_, by unfold publicKeyToAddress ; rw [hpay], ?_⟩
    rw [decodeAddress_enc_p2wpkh n _ (hash160_lt hbytes) (hash160_length _)]
    cases n <;> rfl
  · have hpay : publicKeyToPayment pk AddressType.P2TR n =
        some ⟨encodeAddr (.bech32 (networkTypeToNetwork n).bech32 1
          (taprootTweak (toXOnly (bufferFromHex (remove0x pk)))))⟩ := by
      unfold publicKeyToPayment ; rw [hpk] ; rfl
    refine ⟨_, by unfold publicKeyToAddress ; rw [hpay], ?_⟩
    rw [decodeAddress_enc_p2tr n _ (taprootTweak_lt (toXOnly_lt hbytes)) (taprootTweak_length _)]
    cases n <;> rfl
  · cases n with
    | MAINNET =>
      have hpay : publicKeyToPayment pk AddressType.P2SH_P2WPKH NetworkType.MAINNET =
          some ⟨encodeAddr (.base58 0x05
            (hash160 (p2wpkhOutput (bufferFromHex (remove0x pk)))))⟩ := by
        unfold publicKeyToPayment ; rw [hpk] ; rfl
      refine ⟨_, by unfold publicKeyToAddress ; rw [hpay], ?_⟩
      rw [decodeAddress_enc_base58 0x05 _ (by omega) (hash160_lt (p2wpkhOutput_lt hbytes)) rfl
        NetworkType.MAINNET AddressType.P2SH_P2WPKH (by decide)]
      rfl
    | TESTNET =>
      have hpay : publicKeyToPayment pk AddressType.P2SH_P2WPKH NetworkType.TESTNET =
          some ⟨encodeAddr (.base58 0xc4
            (hash160 (p2wpkhOutput (bufferFromHex (remove0x pk)))))⟩ := by
        unfold publicKeyToPayment ; rw [hpk] ; rfl
      refine ⟨_, by unfold publicKeyToAddress ; rw [hpay], ?_⟩
      rw [decodeAddress_enc_base58 0xc4 _ (by omega) (hash160_lt (p2wpkhOutput_lt hbytes)) rfl
        NetworkType.TESTNET AddressType.P2SH_P2WPKH (by decide)]
      rfl
    | REGTEST =>
      have hpay : publicKeyToPayment pk AddressType.P2SH_P2WPKH NetworkType.REGTEST =
          some ⟨encodeAddr (.base58 0xc4
            (hash160 (p2wpkhOutput (bufferFromHex (remove0x pk)))))⟩ := by
        unfold publicKeyToPayment ; rw [hpk] ; rfl
      refine ⟨_, by unfold publicKeyToAddress ; rw [hpay], ?_⟩
      rw [decodeAddress_enc_base58 0xc4 _ (by omega) (hash160_lt (p2wpkhOutput_lt hbytes)) rfl
        NetworkType.TESTNET AddressType.P2SH_P2WPKH (by decide)]
      rfl

/-- Witness for the amended C1 at the concrete public key "02ab",
requested type P2WPKH and network MAINNET. -/
theorem roundTrip_publicKeyToAddress_decodeAddress_witness :
    ("02ab" : String).data.isEmpty = false ∧
    ∃ addr, publicKeyToAddress "02ab" AddressType.P2WPKH NetworkType.MAINNET = .ok addr ∧
      decodeAddress addr =
        ⟨roundTripNetworkType AddressType.P2WPKH NetworkType.MAINNET,
          AddressType.P2WPKH, getAddressTypeDust AddressType.P2WPKH⟩ :=
  ⟨by decide,
   roundTrip_publicKeyToAddress_decodeAddress "02ab" (by decide)
     AddressType.P2WPKH NetworkType.MAINNET (Or.inr (Or.inl rfl))⟩
